import Mathlib

/-!
Verification development for the SpaceMaquette firmware core
(src/clearcore): command protocol parser, command dispatcher,
motion-control engine, emergency-stop interlock and the Ethernet
transport's reconnect / pending-write machinery.

Each definition is a shallow embedding of the corresponding C++
function; hardware reads (digital inputs, motor feedback, TCP sockets)
are supplied through explicit environment records.  Machine integers
are modelled as `Nat`/`Int`; the only place where fixed-width
truncation matters (the 16-bit CRC register and the parsed checksum
field) carries an explicit `% 2^16`.
-/

namespace SpaceMaquette

set_option maxRecDepth 16000

/-! ## Command protocol parser — src/clearcore/src/command_parser.cpp -/

/-- `CMD_BUFFER_SIZE` from command_parser.h. -/
def CMD_BUFFER_SIZE : Nat := 64

/-- `MAX_PARAMS` from command_parser.h. -/
def MAX_PARAMS : Nat := 10

/-- One bit-iteration of `CommandParser::calculateCRC`'s inner loop:
`crc = (crc & 1) ? (crc >> 1) ^ 0xA001 : crc >> 1`. -/
def crcBit (crc : Nat) : Nat :=
  if crc % 2 == 1 then (crc / 2) ^^^ 0xA001 else crc / 2

/-- One byte-iteration of `CommandParser::calculateCRC`: xor the byte in,
then run eight bit-iterations.  The `(uint8_t)` cast is `% 256`. -/
def crcByte (crc : Nat) (b : Nat) : Nat :=
  crcBit^[8] (crc ^^^ (b % 256))

/-- `CommandParser::calculateCRC` (seed `0xFFFF`, polynomial `0xA001`,
one bit at a time) over a byte sequence. -/
def calculateCRC (data : List Char) : Nat :=
  data.foldl (fun crc c => crcByte crc c.toNat) 0xFFFF

/-- Value of one hexadecimal digit, if the character is one. -/
def hexVal (c : Char) : Option Nat :=
  if '0' ≤ c ∧ c ≤ '9' then some (c.toNat - '0'.toNat)
  else if 'a' ≤ c ∧ c ≤ 'f' then some (c.toNat - 'a'.toNat + 10)
  else if 'A' ≤ c ∧ c ≤ 'F' then some (c.toNat - 'A'.toNat + 10)
  else none

/-- Accumulate the longest hexadecimal-digit prefix. -/
def hexAccum (acc : Nat) : List Char → Nat
  | [] => acc
  | c :: rest =>
    match hexVal c with
    | some v => hexAccum (acc * 16 + v) rest
    | none => acc

/-- Model of `sscanf(semicolonPos + 1, "%x", &receivedCRC)` in
`CommandParser::verifyChecksum` for checksum fields made of plain hex
digits: the converted value, truncated to the 16-bit `receivedCRC`
variable; a field with no leading hex digit leaves the zero-initialised
`receivedCRC` at 0. -/
def parseHexField (s : List Char) : Nat :=
  hexAccum 0 s % 65536

/-- A response written through `CommandParser::sendResponse`:
the wire form is `<status>:<body>\n`. -/
structure Response where
  status : String
  body : String
deriving DecidableEq, Repr

/-- Outcome of `CommandParser::parseCommand` on a complete frame:
either the frame is dispatched (`_commandComplete = true`, so
`processChar` invokes the registered handler exactly once with this
command name and parameter list), or it is rejected with a response and
the handler is not invoked. -/
inductive ParseOutcome where
  | dispatch (cmd : List Char) (params : List (List Char))
  | reject (r : Response)
deriving DecidableEq, Repr

/-- `strtok(_paramBuffer, ",")` splitting: comma-separated tokens,
with empty tokens skipped (strtok treats runs of delimiters as one and
ignores leading/trailing delimiters). -/
def tokenize (s : List Char) : List (List Char) :=
  (s.splitOn ',').filter (fun t => t ≠ [])

/-- `CommandParser::parseCommand` together with the checksum check of
`CommandParser::verifyChecksum`, on the accumulated frame buffer.

* With a `:` present, the command is the text before the first `:` and
  the parameters are the tokens between the `:` and the first `;` (or
  the end of the buffer), capped at `MAX_PARAMS`.
* With no `:`, the whole buffer is taken as the command
  (`strcpy(_command, _buffer)`) and the parameter count stays 0.
* With a `;` present, the CRC-16 is recomputed over the bytes strictly
  before the first `;` and compared with the hex field after it; on
  mismatch the parser sends `ERROR:CHECKSUM_MISMATCH` and leaves
  `_commandComplete` false, so the handler is not invoked.

(The C++ computes `paramsEnd - paramsStart` with raw pointers; a frame
whose first `;` precedes its first `:` makes that length underflow,
which is undefined behaviour in the source — here the slice is simply
empty.) -/
def parseCommand (buf : List Char) : ParseOutcome :=
  let semiIdx := buf.findIdx? (fun c => c == ';')
  let cmdParams : List Char × List (List Char) :=
    match buf.findIdx? (fun c => c == ':') with
    | some ci =>
      let pend := semiIdx.getD buf.length
      ((buf.take ci), (tokenize ((buf.take pend).drop (ci + 1))).take MAX_PARAMS)
    | none => (buf, [])
  match semiIdx with
  | some si =>
    if calculateCRC (buf.take si) == parseHexField (buf.drop (si + 1)) then
      .dispatch cmdParams.1 cmdParams.2
    else
      .reject ⟨"ERROR", "CHECKSUM_MISMATCH"⟩
  | none => .dispatch cmdParams.1 cmdParams.2

/-- `CommandParser::processChar` at a line terminator: an empty buffer
is ignored; otherwise the buffer (silently capped at
`CMD_BUFFER_SIZE - 1` characters) is parsed. -/
def processLine (line : List Char) : Option ParseOutcome :=
  if line = [] then none
  else some (parseCommand (line.take (CMD_BUFFER_SIZE - 1)))

/-! ## Motion control engine — src/clearcore/src/motion_control.cpp -/

/-- Hardware-level commands issued by the engine and the interlock.
The repeated relative search moves of pan homing are summarised by the
segment count that `homePanAxis` returns. -/
inductive MotorCmd where
  | move (axis : Char) (target : Int)
  | servoSet (angle : Int)
  | enableReq (axis : Char) (en : Bool)
  | stopAbrupt (axis : Char)
  | positionRefSet (axis : Char) (v : Int)
  | motorEnableSet (n : Nat) (en : Bool)
deriving DecidableEq, Repr

/-- The private state of `MotionControl`.  `panVelMaxHw` mirrors the
hardware `MOTOR_PAN_AXIS.VelMax` setting (changed to 5000 during pan
homing and restored afterwards). -/
structure MotionState where
  initialized : Bool
  homed : Bool
  currentX : Int
  currentY : Int
  currentZ : Int
  currentPan : Int
  currentTilt : Int
  velocityX : Int
  velocityY : Int
  velocityZ : Int
  velocityPan : Int
  accelerationLimit : Int
  panVelMaxHw : Int
  xEnabled : Bool
  yEnabled : Bool
  zEnabled : Bool
  panEnabled : Bool
  tiltEnabled : Bool
  tiltMinAngle : Int
  tiltMaxAngle : Int
  tiltHomeAngle : Int
  tiltServoPresent : Bool
deriving DecidableEq, Repr

/-- The state established by the `MotionControl` constructor
(`DEFAULT_VELOCITY_LIMIT = 10000`, `DEFAULT_ACCELERATION_LIMIT =
100000`, default tilt limits 45/135, home 90). -/
def motion0 : MotionState where
  initialized := false
  homed := false
  currentX := 0
  currentY := 0
  currentZ := 0
  currentPan := 0
  currentTilt := 0
  velocityX := 10000
  velocityY := 10000
  velocityZ := 10000
  velocityPan := 10000
  accelerationLimit := 100000
  panVelMaxHw := 10000
  xEnabled := false
  yEnabled := false
  zEnabled := false
  panEnabled := false
  tiltEnabled := false
  tiltMinAngle := 45
  tiltMaxAngle := 135
  tiltHomeAngle := 90
  tiltServoPresent := false

/-- The hardware / external-collaborator environment consulted during
one dispatched command.  Per §5 of the spec all waiting is bounded
busy-waiting inside the call; a wait that never ends is modelled as the
whole call returning `none`. -/
structure HwEnv where
  /-- `StatusReg().bit.AlertsPresent` read before commanding a move. -/
  alertsPre : Char → Bool
  /-- the alert bit when the StepsComplete/HLFB busy-wait exits. -/
  alertsPost : Char → Bool
  /-- result of `handleAlerts` (the cycle-the-enable recovery). -/
  recoverOk : Char → Bool
  /-- whether the StepsComplete/HLFB busy-wait of a move ever exits. -/
  moveExits : Char → Bool
  /-- `TiltServo::setAngle` result. -/
  servoAccepts : Int → Bool
  /-- `ConnectorMgr.DigitalInState(_estopPin)`; the input is active-low,
  so `true` means the hardware interlock condition is clear. -/
  estopPinHigh : Bool
  /-- `waitForHlfb(MOTOR_PAN_AXIS, 3000)` at pan-homing start. -/
  panHlfbOk : Bool
  /-- successive `isPanHomeSensorTriggered()` polls during homing. -/
  panSensor : Nat → Bool
  /-- `AlertsPresent` check at the end of pan homing. -/
  panAlertsEnd : Bool
  /-- bound on sensor polls, modelling the unbounded flag search. -/
  homingFuel : Nat
  /-- any `!StepsComplete()` among the four motors (`isMoving`). -/
  motorsStepping : Bool
  /-- `Rangefinder::takeMeasurement()` (external collaborator, §6), in
  thousandths so that the `-2.0` sentinel is `-2000`. -/
  measureMilli : Int
  /-- `ConfigurationManager::loadConfig` result (external, §6). -/
  configLoadOk : Bool
  /-- `ConfigurationManager::saveConfig` result (external, §6). -/
  configSaveOk : Bool

/-- A fault-free environment: no alerts, every wait ends, the servo
accepts every command, the interlock input is clear. -/
def nominalHw : HwEnv where
  alertsPre := fun _ => false
  alertsPost := fun _ => false
  recoverOk := fun _ => true
  moveExits := fun _ => true
  servoAccepts := fun _ => true
  estopPinHigh := true
  panHlfbOk := true
  panSensor := fun _ => false
  panAlertsEnd := false
  homingFuel := 100
  motorsStepping := false
  measureMilli := 0
  configLoadOk := true
  configSaveOk := true

/-- The axis-letter normalisation performed by the `switch` statements
(each accepts the upper- and lower-case letter). -/
def normAxis (axis : Char) : Option Char :=
  if axis == 'X' || axis == 'x' then some 'X'
  else if axis == 'Y' || axis == 'y' then some 'Y'
  else if axis == 'Z' || axis == 'z' then some 'Z'
  else if axis == 'P' || axis == 'p' then some 'P'
  else if axis == 'T' || axis == 't' then some 'T'
  else none

/-- The per-axis enabled flag (`_xEnabled`, ..., `_tiltEnabled`). -/
def axisEnabled (st : MotionState) : Char → Bool
  | 'X' => st.xEnabled
  | 'Y' => st.yEnabled
  | 'Z' => st.zEnabled
  | 'P' => st.panEnabled
  | 'T' => st.tiltEnabled
  | _ => false

/-- The position-update switch at the end of `moveAbsolute` (it has
cases for X, Y, Z and P only). -/
def setAxisPos (st : MotionState) (a : Char) (pos : Int) : MotionState :=
  match a with
  | 'X' => { st with currentX := pos }
  | 'Y' => { st with currentY := pos }
  | 'Z' => { st with currentZ := pos }
  | 'P' => { st with currentPan := pos }
  | _ => st

/-- `MotionControl::setTiltAngle`: fail when the tilt axis is disabled
or no servo is attached; clamp the request into
`[_tiltMinAngle, _tiltMaxAngle]`; update `_currentTilt` only when the
servo accepts the command. -/
def setTiltAngle (env : HwEnv) (st : MotionState) (angle : Int) :
    Bool × MotionState × List MotorCmd :=
  if !st.tiltEnabled || !st.tiltServoPresent then (false, st, [])
  else
    let a := if angle < st.tiltMinAngle then st.tiltMinAngle
             else if angle > st.tiltMaxAngle then st.tiltMaxAngle
             else angle
    if env.servoAccepts a then (true, { st with currentTilt := a }, [.servoSet a])
    else (false, st, [.servoSet a])

/-- `MotionControl::moveAbsolute`: fail when uninitialised, on an
unknown axis or on a disabled axis (commanding nothing); the tilt case
delegates to `setTiltAngle`; otherwise check alerts (recovering once),
command the absolute move, busy-wait until completion or an alert, and
update the position only on success.  `none` models the wait loop never
exiting. -/
def moveAbsolute (env : HwEnv) (st : MotionState) (axis : Char) (pos : Int) :
    Option (Bool × MotionState × List MotorCmd) :=
  if !st.initialized then some (false, st, [])
  else
    match normAxis axis with
    | none => some (false, st, [])
    | some 'T' =>
      if !st.tiltEnabled then some (false, st, [])
      else some (setTiltAngle env st pos)
    | some a =>
      if !(axisEnabled st a) then some (false, st, [])
      else
        let pre := if env.alertsPre a then env.recoverOk a else true
        if !pre then some (false, st, [])
        else if !(env.moveExits a) then none
        else
          let post := if env.alertsPost a then env.recoverOk a else true
          if post then some (true, setAxisPos st a pos, [.move a pos])
          else some (false, st, [.move a pos])

/-- `MotionControl::moveToPosition`: each axis whose target is negative
is skipped; every non-negative target is attempted (the `success &=`
chain never short-circuits) and the result is the conjunction.  The
tilt component goes through `setTiltAngle`. -/
def moveToPosition (env : HwEnv) (st : MotionState) (x y z pan tilt : Int) :
    Option (Bool × MotionState × List MotorCmd) := do
  let (rx, st1, c1) ← if x ≥ 0 then moveAbsolute env st 'X' x else pure (true, st, [])
  let (ry, st2, c2) ← if y ≥ 0 then moveAbsolute env st1 'Y' y else pure (true, st1, [])
  let (rz, st3, c3) ← if z ≥ 0 then moveAbsolute env st2 'Z' z else pure (true, st2, [])
  let (rp, st4, c4) ← if pan ≥ 0 then moveAbsolute env st3 'P' pan else pure (true, st3, [])
  let (rt, st5, c5) ←
    if tilt ≥ 0 then pure (setTiltAngle env st4 tilt) else pure (true, st4, [])
  pure (rx && ry && rz && rp && rt, st5, c1 ++ c2 ++ c3 ++ c4 ++ c5)

/-- `MotionControl::stop`: abrupt halt on every linear/pan axis;
always returns true, touches no engine state. -/
def motionStop (st : MotionState) : Bool × MotionState × List MotorCmd :=
  (true, st, [.stopAbrupt 'X', .stopAbrupt 'Y', .stopAbrupt 'Z', .stopAbrupt 'P'])

/-- `MotionControl::setVelocity`; once initialised, the pan hardware
limit follows the X velocity (`MOTOR_PAN_AXIS.VelMax(_velocityX)`). -/
def setVelocity (st : MotionState) (vx vy vz : Int) : MotionState :=
  let st1 := { st with velocityX := vx, velocityY := vy, velocityZ := vz }
  if st1.initialized then { st1 with panVelMaxHw := vx } else st1

/-- `MotionControl::setTiltLimits`: accepted only when
`0 ≤ min < max ≤ 180`, otherwise ignored. -/
def setTiltLimits (st : MotionState) (minA maxA : Int) : MotionState :=
  if 0 ≤ minA ∧ minA < maxA ∧ maxA ≤ 180 then
    { st with tiltMinAngle := minA, tiltMaxAngle := maxA }
  else st

/-- `MotionControl::setPanAngle` simply forwards to
`moveAbsolute('P', angle)`. -/
def setPanAngle (env : HwEnv) (st : MotionState) (angle : Int) :
    Option (Bool × MotionState × List MotorCmd) :=
  moveAbsolute env st 'P' angle

/-- `MotionControl::isMoving`. -/
def motionIsMoving (env : HwEnv) (st : MotionState) : Bool :=
  if !st.initialized then false else env.motorsStepping

/-- First index `n ≥ start` with `p n`, scanning at most `fuel`
indices: the bounded version of the sensor-poll search loops. -/
def boundedFindFrom (p : Nat → Bool) (start fuel : Nat) : Option Nat :=
  match fuel with
  | 0 => none
  | f + 1 => if p start then some start else boundedFindFrom p (start + 1) f

/-- Result of `MotionControl::homePanAxis`: the returned flag, the new
engine state, the hardware commands issued after the search, and the
number of search segments performed (a segment is one
rotate-until-the-flag-changes phase). -/
structure HomingResult where
  success : Bool
  state : MotionState
  cmds : List MotorCmd
  segments : Nat
deriving DecidableEq, Repr

/-- `MotionControl::homePanAxis`: fail if the pan axis is disabled;
drop the hardware velocity limit to 5000; cycle the enable signal and
wait for HLFB (failing out, with the reduced limit left in place, if it
does not assert).  If the home flag is asserted at start, rotate until
it de-asserts and then until it re-asserts (two segments); otherwise
rotate until it asserts (one segment).  Then stop abruptly, zero the
reference position (disable, `PositionRefSet(0)`, command 0, re-enable),
zero `_currentPan`, restore the saved velocity limit, and finally check
for alerts (recovering once).  `none` models a flag search that never
observes the transition it waits for. -/
def homePanAxis (env : HwEnv) (st : MotionState) : Option HomingResult :=
  if !st.panEnabled then some ⟨false, st, [], 0⟩
  else
    let saved := st.velocityPan
    let st1 := { st with panVelMaxHw := 5000 }
    let preCmds : List MotorCmd := [.enableReq 'P' false, .enableReq 'P' true]
    if !env.panHlfbOk then some ⟨false, st1, preCmds, 0⟩
    else
      let segs? : Option Nat :=
        if env.panSensor 0 then
          (boundedFindFrom (fun n => !env.panSensor n) 0 env.homingFuel).bind fun t1 =>
            (boundedFindFrom (fun n => env.panSensor n) t1 env.homingFuel).map fun _ => 2
        else
          (boundedFindFrom (fun n => env.panSensor n) 0 env.homingFuel).map fun _ => 1
      match segs? with
      | none => none
      | some segs =>
        let endCmds : List MotorCmd :=
          [.stopAbrupt 'P', .enableReq 'P' false, .positionRefSet 'P' 0,
           .move 'P' 0, .enableReq 'P' true]
        let st2 := { st1 with currentPan := 0, panVelMaxHw := saved, velocityPan := saved }
        let ok := if env.panAlertsEnd then env.recoverOk 'P' else true
        some ⟨ok, st2, preCmds ++ endCmds, segs⟩

/-- `MotionControl::homeAxis`: the linear axes zero their position in
software when enabled (no sensor, see §9 of the spec), pan delegates to
`homePanAxis`, tilt moves to the home angle through `setTiltAngle`. -/
def homeAxis (env : HwEnv) (st : MotionState) (axis : Char) :
    Option (Bool × MotionState × List MotorCmd) :=
  match normAxis axis with
  | some 'X' =>
    some (if st.xEnabled then (true, { st with currentX := 0 }, []) else (false, st, []))
  | some 'Y' =>
    some (if st.yEnabled then (true, { st with currentY := 0 }, []) else (false, st, []))
  | some 'Z' =>
    some (if st.zEnabled then (true, { st with currentZ := 0 }, []) else (false, st, []))
  | some 'P' => (homePanAxis env st).map fun r => (r.success, r.state, r.cmds)
  | some 'T' =>
    if st.tiltEnabled && st.tiltServoPresent then some (setTiltAngle env st st.tiltHomeAngle)
    else some (false, st, [])
  | _ => some (false, st, [])

/-- `MotionControl::homeAllAxes`: home X, Y, Z, P, T in order (the
`success &=` chain runs every one), set `_homed` when all succeed. -/
def homeAllAxes (env : HwEnv) (st : MotionState) :
    Option (Bool × MotionState × List MotorCmd) := do
  let (rx, st1, c1) ← homeAxis env st 'X'
  let (ry, st2, c2) ← homeAxis env st1 'Y'
  let (rz, st3, c3) ← homeAxis env st2 'Z'
  let (rp, st4, c4) ← homeAxis env st3 'P'
  let (rt, st5, c5) ← homeAxis env st4 'T'
  let ok := rx && ry && rz && rp && rt
  pure (ok, if ok then { st5 with homed := true } else st5, c1 ++ c2 ++ c3 ++ c4 ++ c5)

/-! ## Emergency-stop interlock — src/clearcore/src/emergency.cpp -/

/-- `EmergencyStop`'s latched state (`_estopActive`). -/
structure EstopState where
  active : Bool
deriving DecidableEq, Repr

/-- `EmergencyStop::disableMotors`: drop the enable signal of all four
motor connectors. -/
def estopDisableCmds : List MotorCmd :=
  [.motorEnableSet 1 false, .motorEnableSet 2 false,
   .motorEnableSet 3 false, .motorEnableSet 4 false]

/-- `EmergencyStop::activate`: latch the flag and immediately
de-energise all motors, unconditionally. -/
def estopActivate (_st : EstopState) : EstopState × List MotorCmd :=
  (⟨true⟩, estopDisableCmds)

/-- `EmergencyStop::reset`: refuse while the (active-low) input is
still tripped; otherwise clear the flag.  Motors stay disabled — no
hardware command is issued. -/
def estopReset (env : HwEnv) (st : EstopState) : Bool × EstopState :=
  if !env.estopPinHigh then (false, st) else (true, ⟨false⟩)

/-! ## Command dispatcher — src/clearcore/src/command_handler.cpp -/

/-- Numeric parameter conversion: `getParamAsFloat` (`atof`) followed
by the `int32_t` conversion at the engine call sites, for decimal
parameter strings — an optional sign, then the integer part; any
fractional part is truncated toward zero by the cast. -/
def paramToInt (s : List Char) : Int :=
  match s with
  | '-' :: rest => -((afterSignDigits rest : Nat) : Int)
  | '+' :: rest => ((afterSignDigits rest : Nat) : Int)
  | _ => ((afterSignDigits s : Nat) : Int)
where
  /-- value of the leading run of decimal digits (`atof`/`atoi` stop at
  the first non-digit; an empty run gives 0). -/
  afterSignDigits (t : List Char) : Nat :=
    (t.takeWhile Char.isDigit).foldl (fun a c => a * 10 + (c.toNat - '0'.toNat)) 0

/-- The key/value configuration store (external collaborator, §6 of the
spec: `getString/setString/hasKey/getInt` over string keys). -/
abbrev ConfigStore := List (String × String)

/-- `ConfigurationManager::hasKey` (external collaborator, §6). -/
def configHasKey (cs : ConfigStore) (k : String) : Bool :=
  (cs.lookup k).isSome

/-- `ConfigurationManager::getString` with default (external, §6). -/
def configGetString (cs : ConfigStore) (k dflt : String) : String :=
  (cs.lookup k).getD dflt

/-- `ConfigurationManager::setString` (external, §6). -/
def configSetString (cs : ConfigStore) (k v : String) : ConfigStore :=
  (k, v) :: cs.eraseP (fun p => p.1 == k)

/-- `ConfigurationManager::getInt` with default (external, §6). -/
def configGetInt (cs : ConfigStore) (k : String) (dflt : Int) : Int :=
  match cs.lookup k with
  | some v => paramToInt v.toList
  | none => dflt

/-- The state a dispatched command can touch: the motion engine, the
interlock, the handler's `_debugMode` flag and the configuration
store. -/
structure SysState where
  motion : MotionState
  estop : EstopState
  debugMode : Bool
  config : ConfigStore
deriving DecidableEq, Repr

/-- What one `CommandHandler::processCommand` call produced: the
response written through the parser (`none` on the unreachable
fall-through branches that emit nothing), the new state, and the
hardware commands issued. -/
structure DispatchResult where
  response : Option Response
  sys : SysState
  cmds : List MotorCmd
deriving DecidableEq, Repr

/-- `"1"`/`"0"` rendering of the `%d`-formatted flags in STATUS. -/
def boolBit (b : Bool) : String := if b then "1" else "0"

/-- The STATUS response body.  The positions are integral counts; the
`%.2f` float rendering of the source is abstracted to plain decimal
text (no claim inspects this string). -/
def statusBody (env : HwEnv) (sys : SysState) : String :=
  "X=" ++ toString sys.motion.currentX ++
  ",Y=" ++ toString sys.motion.currentY ++
  ",Z=" ++ toString sys.motion.currentZ ++
  ",PAN=" ++ toString sys.motion.currentPan ++
  ",TILT=" ++ toString sys.motion.currentTilt ++
  ",ESTOP=" ++ boolBit sys.estop.active ++
  ",MOVING=" ++ boolBit (motionIsMoving env sys.motion) ++
  ",HOMED=" ++ boolBit sys.motion.homed

/-- `CommandParser::getParam`: out-of-range indices yield the empty
string. -/
def getParam (params : List String) (i : Nat) : String :=
  params.getD i ""

/-- `CommandHandler::handleSystemCommands` (RESET, STATUS, DEBUG; the
PING case is dead code — `processCommand` answers PING itself). -/
def handleSystemCommands (env : HwEnv) (sys : SysState) (cmd : String)
    (params : List String) : DispatchResult :=
  if cmd == "PING" then ⟨some ⟨"OK", "PONG"⟩, sys, []⟩
  else if cmd == "RESET" then
    let (_, m, cs) := motionStop sys.motion
    ⟨some ⟨"OK", "RESETTING"⟩, { sys with motion := m }, cs⟩
  else if cmd == "STATUS" then
    ⟨some ⟨"OK", statusBody env sys⟩, sys, []⟩
  else if cmd == "DEBUG" then
    if params.length > 0 then
      let mode := getParam params 0
      if mode == "ON" then ⟨some ⟨"OK", "DEBUG_ENABLED"⟩, { sys with debugMode := true }, []⟩
      else if mode == "OFF" then
        ⟨some ⟨"OK", "DEBUG_DISABLED"⟩, { sys with debugMode := false }, []⟩
      else ⟨some ⟨"ERROR", "INVALID_PARAM"⟩, sys, []⟩
    else ⟨some ⟨"ERROR", "MISSING_PARAM"⟩, sys, []⟩
  else ⟨none, sys, []⟩

/-- `CommandHandler::handleMotionCommands` (HOME, MOVE, STOP,
VELOCITY). -/
def handleMotionCommands (env : HwEnv) (sys : SysState) (cmd : String)
    (params : List String) : Option DispatchResult :=
  if cmd == "HOME" then
    if params.length > 0 then
      let axis := getParam params 0
      let run : Option (Option (Bool × MotionState × List MotorCmd)) :=
        if axis == "ALL" then some (homeAllAxes env sys.motion)
        else if axis == "X" then some (homeAxis env sys.motion 'X')
        else if axis == "Y" then some (homeAxis env sys.motion 'Y')
        else if axis == "Z" then some (homeAxis env sys.motion 'Z')
        else none
      match run with
      | none => some ⟨some ⟨"ERROR", "INVALID_AXIS"⟩, sys, []⟩
      | some r => r.map fun (ok, m, cs) =>
          ⟨some (if ok then ⟨"OK", "HOMING_STARTED"⟩ else ⟨"ERROR", "HOMING_FAILED"⟩),
           { sys with motion := m }, cs⟩
    else some ⟨some ⟨"ERROR", "MISSING_PARAM"⟩, sys, []⟩
  else if cmd == "MOVE" then
    if params.length ≥ 3 then
      let x := paramToInt (getParam params 0).toList
      let y := paramToInt (getParam params 1).toList
      let z := paramToInt (getParam params 2).toList
      let pan := if params.length > 3 then paramToInt (getParam params 3).toList
                 else sys.motion.currentPan
      let tilt := if params.length > 4 then paramToInt (getParam params 4).toList
                  else sys.motion.currentTilt
      (moveToPosition env sys.motion x y z pan tilt).map fun (ok, m, cs) =>
        ⟨some (if ok then ⟨"OK", "MOVE_STARTED"⟩ else ⟨"ERROR", "MOVE_FAILED"⟩),
         { sys with motion := m }, cs⟩
    else some ⟨some ⟨"ERROR", "MISSING_PARAMS"⟩, sys, []⟩
  else if cmd == "STOP" then
    let (_, m, cs) := motionStop sys.motion
    some ⟨some ⟨"OK", "MOTION_STOPPED"⟩, { sys with motion := m }, cs⟩
  else if cmd == "VELOCITY" then
    if params.length ≥ 3 then
      let vx := paramToInt (getParam params 0).toList
      let vy := paramToInt (getParam params 1).toList
      let vz := paramToInt (getParam params 2).toList
      some ⟨some ⟨"OK", "VELOCITY_SET"⟩,
            { sys with motion := setVelocity sys.motion vx vy vz }, []⟩
    else some ⟨some ⟨"ERROR", "MISSING_PARAMS"⟩, sys, []⟩
  else some ⟨none, sys, []⟩

/-- `CommandHandler::handleRangefinderCommands` (MEASURE, SCAN); the
rangefinder is an external collaborator (§6): a negative measurement is
failure, the `-2.0` sentinel (`-2000` in thousandths) is out-of-range,
and the `%.3f` rendering of a valid distance is abstracted to decimal
text. -/
def handleRangefinderCommands (env : HwEnv) (sys : SysState) (cmd : String)
    (params : List String) : DispatchResult :=
  if cmd == "MEASURE" then
    let d := env.measureMilli
    if d ≥ 0 then ⟨some ⟨"OK", toString d⟩, sys, []⟩
    else if d == -2000 then ⟨some ⟨"ERROR", "OUT_OF_RANGE"⟩, sys, []⟩
    else ⟨some ⟨"ERROR", "MEASUREMENT_FAILED"⟩, sys, []⟩
  else if cmd == "SCAN" then
    if params.length ≥ 5 then ⟨some ⟨"OK", "SCAN_STARTED"⟩, sys, []⟩
    else ⟨some ⟨"ERROR", "MISSING_PARAMS"⟩, sys, []⟩
  else ⟨none, sys, []⟩

/-- `CommandHandler::handleServoCommands` (TILT, PAN).  NOTE: the
source routes BOTH commands to `_motion.setPanAngle` — the TILT branch
never calls `setTiltAngle`; this embedding reproduces that faithfully
(`bool success = _motion.setPanAngle(static_cast<int32_t>(angle))` in
the TILT branch, command_handler.cpp line 244). -/
def handleServoCommands (env : HwEnv) (sys : SysState) (cmd : String)
    (params : List String) : Option DispatchResult :=
  if cmd == "TILT" then
    if params.length > 0 then
      let angle := paramToInt (getParam params 0).toList
      (setPanAngle env sys.motion angle).map fun (ok, m, cs) =>
        ⟨some (if ok then ⟨"OK", "TILT_SET"⟩ else ⟨"ERROR", "TILT_FAILED"⟩),
         { sys with motion := m }, cs⟩
    else some ⟨some ⟨"ERROR", "MISSING_PARAM"⟩, sys, []⟩
  else if cmd == "PAN" then
    if params.length > 0 then
      let angle := paramToInt (getParam params 0).toList
      (setPanAngle env sys.motion angle).map fun (ok, m, cs) =>
        ⟨some (if ok then ⟨"OK", "PAN_SET"⟩ else ⟨"ERROR", "PAN_FAILED"⟩),
         { sys with motion := m }, cs⟩
    else some ⟨some ⟨"ERROR", "MISSING_PARAM"⟩, sys, []⟩
  else some ⟨none, sys, []⟩

/-- `CommandHandler::handleConfigCommands` (CONFIG, GET, SET, SAVE).
`SET` writes through to the store and immediately re-applies the tilt
limits or velocities for the keys the source singles out. -/
def handleConfigCommands (env : HwEnv) (sys : SysState) (cmd : String)
    (params : List String) : DispatchResult :=
  if cmd == "CONFIG" then
    if params.length > 0 then
      let sub := getParam params 0
      if sub == "LOAD" then
        if env.configLoadOk then ⟨some ⟨"OK", "CONFIG_LOADED"⟩, sys, []⟩
        else ⟨some ⟨"ERROR", "CONFIG_LOAD_FAILED"⟩, sys, []⟩
      else if sub == "SAVE" then
        if env.configSaveOk then ⟨some ⟨"OK", "CONFIG_SAVED"⟩, sys, []⟩
        else ⟨some ⟨"ERROR", "CONFIG_SAVE_FAILED"⟩, sys, []⟩
      else if sub == "LIST" then ⟨some ⟨"OK", "CONFIG_LIST_NOT_IMPLEMENTED"⟩, sys, []⟩
      else ⟨some ⟨"ERROR", "INVALID_CONFIG_COMMAND"⟩, sys, []⟩
    else ⟨some ⟨"ERROR", "MISSING_CONFIG_COMMAND"⟩, sys, []⟩
  else if cmd == "GET" then
    if params.length > 0 then
      let key := getParam params 0
      if configHasKey sys.config key then
        ⟨some ⟨"OK", configGetString sys.config key ""⟩, sys, []⟩
      else ⟨some ⟨"ERROR", "KEY_NOT_FOUND"⟩, sys, []⟩
    else ⟨some ⟨"ERROR", "MISSING_KEY"⟩, sys, []⟩
  else if cmd == "SET" then
    if params.length ≥ 2 then
      let key := getParam params 0
      let v := getParam params 1
      let cfg := configSetString sys.config key v
      let m :=
        if key == "tilt_min" || key == "tilt_max" then
          setTiltLimits sys.motion (configGetInt cfg "tilt_min" 45)
            (configGetInt cfg "tilt_max" 135)
        else if key == "velocity_x" then
          setVelocity sys.motion (configGetInt cfg "velocity_x" 10000)
            (configGetInt cfg "velocity_y" 10000) (configGetInt cfg "velocity_z" 10000)
        else sys.motion
      ⟨some ⟨"OK", "VALUE_SET"⟩, { sys with config := cfg, motion := m }, []⟩
    else ⟨some ⟨"ERROR", "MISSING_PARAMS"⟩, sys, []⟩
  else if cmd == "SAVE" then
    if env.configSaveOk then ⟨some ⟨"OK", "CONFIG_SAVED"⟩, sys, []⟩
    else ⟨some ⟨"ERROR", "CONFIG_SAVE_FAILED"⟩, sys, []⟩
  else ⟨none, sys, []⟩

/-- `CommandHandler::processCommand`: ESTOP is checked first and
unconditionally activates the interlock; while the interlock is active
every command other than STATUS and RESET_ESTOP is rejected with
`ERROR:ESTOP_ACTIVE`; then RESET_ESTOP, then routing by name;
unrecognised names get `ERROR:UNKNOWN_COMMAND`. -/
def processCommand (env : HwEnv) (sys : SysState) (cmd : String)
    (params : List String) : Option DispatchResult :=
  if cmd == "ESTOP" then
    let (e, cs) := estopActivate sys.estop
    some ⟨some ⟨"OK", "ESTOP_ACTIVATED"⟩, { sys with estop := e }, cs⟩
  else if sys.estop.active && cmd != "STATUS" && cmd != "RESET_ESTOP" then
    some ⟨some ⟨"ERROR", "ESTOP_ACTIVE"⟩, sys, []⟩
  else if cmd == "RESET_ESTOP" then
    let (ok, e) := estopReset env sys.estop
    some ⟨some (if ok then ⟨"OK", "ESTOP_RESET"⟩ else ⟨"ERROR", "ESTOP_STILL_ACTIVE"⟩),
          { sys with estop := e }, []⟩
  else if cmd == "PING" then some ⟨some ⟨"OK", "PONG"⟩, sys, []⟩
  else if cmd == "RESET" || cmd == "STATUS" || cmd == "DEBUG" then
    some (handleSystemCommands env sys cmd params)
  else if cmd == "HOME" || cmd == "MOVE" || cmd == "STOP" || cmd == "VELOCITY" then
    handleMotionCommands env sys cmd params
  else if cmd == "MEASURE" || cmd == "SCAN" then
    some (handleRangefinderCommands env sys cmd params)
  else if cmd == "TILT" || cmd == "PAN" then
    handleServoCommands env sys cmd params
  else if cmd == "CONFIG" || cmd == "GET" || cmd == "SET" || cmd == "SAVE" then
    some (handleConfigCommands env sys cmd params)
  else some ⟨some ⟨"ERROR", "UNKNOWN_COMMAND"⟩, sys, []⟩

/-- One parser outcome fed to the registered handler: a dispatched
frame goes to `processCommand`; a rejected frame only produces the
parser's own error response. -/
def handleOutcome (env : HwEnv) (sys : SysState) : ParseOutcome → Option DispatchResult
  | .dispatch cmd params =>
    processCommand env sys (String.mk cmd) (params.map fun p => String.mk p)
  | .reject r => some ⟨some r, sys, []⟩

/-- One complete line from the transport, through the parser and (when
dispatched) the handler.  An empty line does nothing. -/
def runLine (env : HwEnv) (sys : SysState) (line : List Char) : Option DispatchResult :=
  match processLine line with
  | none => some ⟨none, sys, []⟩
  | some o => handleOutcome env sys o

/-! ## Network transport — src/clearcore/src/ethernet_device.cpp -/

/-- `EthernetDevice::ConnectionState`. -/
inductive ConnState where
  | disconnected
  | connecting
  | connected
  | connectionError
  | timeout
  | reconnecting
deriving DecidableEq, Repr

/-- `MAX_RECONNECT_ATTEMPTS` (ethernet_device.h). -/
def MAX_RECONNECT_ATTEMPTS : Nat := 5

/-- `MAX_PENDING_ITEMS` (ethernet_device.h). -/
def MAX_PENDING_ITEMS : Nat := 10

/-- Capacity of one `PendingData::data` chunk (ethernet_device.h:
`uint8_t data[64]`). -/
def PENDING_CHUNK_CAP : Nat := 64

/-- The `_reconnectBackoff` delay table set up by the constructor. -/
def reconnectBackoff : List Nat := [1000, 2000, 5000, 10000, 30000]

/-- The transport state the reconnect / pending-write machinery
touches.  A pending chunk is its byte list; the queue front is the list
head. -/
structure EthState where
  connectionState : ConnState
  reconnectEnabled : Bool
  reconnectAttempts : Nat
  lastReconnectTime : Nat
  lastActivityTime : Nat
  connectionStartTime : Nat
  pendingQueue : List (List Nat)
  lastError : Nat
  statErrorCount : Nat
  statConnectionCount : Nat
  statReconnectAttempts : Nat
  statReconnectSuccess : Nat
  statBytesSent : Nat
deriving DecidableEq, Repr

/-- The transport state after the constructor and `init()`:
disconnected, auto-reconnect enabled, counters zero, queue empty. -/
def eth0 : EthState where
  connectionState := .disconnected
  reconnectEnabled := true
  reconnectAttempts := 0
  lastReconnectTime := 0
  lastActivityTime := 0
  connectionStartTime := 0
  pendingQueue := []
  lastError := 0
  statErrorCount := 0
  statConnectionCount := 0
  statReconnectAttempts := 0
  statReconnectSuccess := 0
  statBytesSent := 0

/-- The socket environment of one transport call: the current time,
whether the current `_client` object reports `Connected()`, whether
`_server.Available()` yields a connected client, and how many bytes
`EthernetTcpClient::Send` accepts for a given chunk. -/
structure NetEnv where
  now : Nat
  clientConnected : Bool
  serverAvail : Bool
  sendAccepts : List Nat → Nat

/-- `ERROR_SEND_FAILED` (ethernet_device.h). -/
def ERROR_SEND_FAILED : Nat := 6

/-- `EthernetDevice::updateConnectionState`: set the state, latch a
non-zero error code (counting it), and count entries into
`RECONNECTING` among the reconnect-attempt statistics. -/
def updateConnectionState (st : EthState) (s : ConnState) (code : Nat) : EthState :=
  let st1 := if code ≠ 0 then
    { st with lastError := code, statErrorCount := st.statErrorCount + 1 }
  else st
  let st2 := { st1 with connectionState := s }
  if s == ConnState.reconnecting then
    { st2 with statReconnectAttempts := st2.statReconnectAttempts + 1 }
  else st2

/-- `EthernetDevice::calculateReconnectDelay`: index the backoff table
by the attempt count, capped at the last entry. -/
def calculateReconnectDelay (attempts : Nat) : Nat :=
  if attempts < MAX_RECONNECT_ATTEMPTS then reconnectBackoff.getD attempts 0
  else reconnectBackoff.getD (MAX_RECONNECT_ATTEMPTS - 1) 0

/-- `EthernetDevice::resetReconnectionCounters`. -/
def resetReconnectionCounters (st : EthState) : EthState :=
  { st with reconnectAttempts := 0, lastReconnectTime := 0 }

/-- The `while (!_pendingQueue.empty())` loop of `flushPendingData`:
send the front chunk; on a full send pop and continue, otherwise stop.
Returns the loop's `success` flag, the remaining queue, the chunks
transmitted in full (in order) and the bytes counted by
`trackSentData`. -/
def flushLoop (send : List Nat → Nat) :
    List (List Nat) → Bool × List (List Nat) × List (List Nat) × Nat
  | [] => (true, [], [], 0)
  | c :: rest =>
    if send c = c.length then
      let (ok, rem, sent, b) := flushLoop send rest
      (ok, rem, c :: sent, c.length + b)
    else (false, c :: rest, [], 0)

/-- `EthernetDevice::flushPendingData`: nothing to do (returning
false) when the client is not connected or the queue is empty;
otherwise drain the queue front-first, stopping at the first chunk that
does not send in full. -/
def flushPendingData (connected : Bool) (send : List Nat → Nat) (st : EthState) :
    Bool × EthState × List (List Nat) :=
  if !connected || st.pendingQueue.isEmpty then (false, st, [])
  else
    let (ok, rem, sent, b) := flushLoop send st.pendingQueue
    (ok, { st with pendingQueue := rem, statBytesSent := st.statBytesSent + b }, sent)

/-- `EthernetDevice::reconnect`: already-connected short-circuit; at
the attempt cap, log, go `DISCONNECTED` and — via
`resetReconnectionCounters` — zero the attempt counter; refuse before
the backoff delay has elapsed; otherwise stamp the attempt, enter
`RECONNECTING`, and poll the server: on success go `CONNECTED`, bump
the statistics, flush the pending queue and reset the counters, else
fall back to `DISCONNECTED`.  The third component is the chunk
sequence transmitted to the peer by the pending-data flush. -/
def reconnect (env : NetEnv) (st : EthState) : Bool × EthState × List (List Nat) :=
  if st.connectionState == ConnState.connected && env.clientConnected then (true, st, [])
  else if st.reconnectAttempts ≥ MAX_RECONNECT_ATTEMPTS then
    (false, resetReconnectionCounters (updateConnectionState st .disconnected 0), [])
  else if env.now - st.lastReconnectTime < calculateReconnectDelay st.reconnectAttempts then
    (false, st, [])
  else
    let st1 := { st with lastReconnectTime := env.now,
                         reconnectAttempts := st.reconnectAttempts + 1 }
    let st2 := updateConnectionState st1 .reconnecting 0
    if env.serverAvail then
      let st3 := { (updateConnectionState st2 .connected 0) with
                   connectionStartTime := env.now,
                   lastActivityTime := env.now,
                   statConnectionCount := st2.statConnectionCount + 1,
                   statReconnectSuccess := st2.statReconnectSuccess + 1 }
      let (_, st4, sent) := flushPendingData true env.sendAccepts st3
      (true, resetReconnectionCounters st4, sent)
    else
      (false, updateConnectionState st2 .disconnected 0, [])

/-- `EthernetDevice::connect`: already-connected short-circuit, then
`CONNECTING`, then poll the server; on success go `CONNECTED`, bump the
connection count and flush the pending queue; otherwise fall back to
`DISCONNECTED`. -/
def connect (env : NetEnv) (st : EthState) : Bool × EthState × List (List Nat) :=
  if st.connectionState == ConnState.connected && env.clientConnected then (true, st, [])
  else
    let st1 := updateConnectionState st .connecting 0
    if env.serverAvail then
      let st2 := { (updateConnectionState st1 .connected 0) with
                   connectionStartTime := env.now,
                   lastActivityTime := env.now,
                   statConnectionCount := st1.statConnectionCount + 1 }
      let (_, st3, sent) := flushPendingData true env.sendAccepts st2
      (true, st3, sent)
    else (false, updateConnectionState st1 .disconnected 0, [])

/-- `EthernetDevice::disconnect`: close, go `DISCONNECTED`, reset the
reconnection counters. -/
def disconnect (st : EthState) : EthState :=
  resetReconnectionCounters (updateConnectionState st .disconnected 0)

/-- The body of `EthernetDevice::write(const uint8_t*, size_t)` after
its `update()` housekeeping call (housekeeping is modelled separately
by `reconnect`/`connect`).  Connected: try to send; a send of zero
bytes with a non-empty chunk enqueues the chunk (only when
auto-reconnect is enabled, the queue holds fewer than
`MAX_PENDING_ITEMS` chunks AND the chunk fits the 64-byte
`PendingData::data` buffer), flags `ERROR_SEND_FAILED` and triggers a
reconnect, returning 0.  Not connected: enqueue under the same three
conditions and report the chunk's size (`return size; // Pretend we
wrote it`), else return 0.  The last component is the byte chunks the
peer actually observed during this call. -/
def writeChunk (env : NetEnv) (st : EthState) (chunk : List Nat) :
    Nat × EthState × List (List Nat) :=
  if env.clientConnected then
    let w := env.sendAccepts chunk
    if w > 0 then
      (w, { st with statBytesSent := st.statBytesSent + w, lastActivityTime := env.now },
       [chunk.take w])
    else if chunk.length > 0 then
      let st1 :=
        if st.reconnectEnabled && st.pendingQueue.length < MAX_PENDING_ITEMS
            && chunk.length ≤ PENDING_CHUNK_CAP then
          { st with pendingQueue := st.pendingQueue ++ [chunk] }
        else st
      let st2 := updateConnectionState st1 .connectionError ERROR_SEND_FAILED
      if st2.reconnectEnabled then
        let (_, st3, sent) := reconnect env st2
        (0, st3, sent)
      else (0, st2, [])
    else (0, st, [])
  else if st.reconnectEnabled && st.pendingQueue.length < MAX_PENDING_ITEMS
      && chunk.length ≤ PENDING_CHUNK_CAP then
    (chunk.length, { st with pendingQueue := st.pendingQueue ++ [chunk] }, [])
  else (0, st, [])

/-! ## Concrete states used by the theorems -/

/-- A fully initialised engine with every axis enabled, a tilt servo
attached, default limits `[45, 135]` and the tilt at the home angle. -/
def mReady : MotionState :=
  { motion0 with initialized := true, xEnabled := true, yEnabled := true,
                 zEnabled := true, panEnabled := true, tiltEnabled := true,
                 tiltServoPresent := true, currentTilt := 90 }

/-- A ready system with the interlock inactive. -/
def sysReady : SysState := ⟨mReady, ⟨false⟩, false, []⟩

/-- The ready system but with the X axis disabled. -/
def sysXoff : SysState := ⟨{ mReady with xEnabled := false }, ⟨false⟩, false, []⟩

/-- A socket environment at time `t` with no peer: the client is gone
and the server never yields a connection. -/
def noPeerAt (t : Nat) : NetEnv := ⟨t, false, false, fun _ => 0⟩

/-- One automatic `reconnect()` invocation at time `t` with no peer,
keeping only the resulting state. -/
def reconStep (st : EthState) (t : Nat) : EthState :=
  (reconnect (noPeerAt t) st).2.1

/-- The transport state after five failed automatic reconnect attempts
(at 2 s, 4 s, 9 s, 19 s, 49 s — each past its backoff delay) followed
by a sixth call that hits the attempt cap. -/
def ethAfterCap : EthState :=
  [2000, 4000, 9000, 19000, 49000, 50000].foldl reconStep eth0

/-! ## Claim theorems -/

/-- C1: for every parsed frame, the literal command `ESTOP` activates
the interlock and answers `OK:ESTOP_ACTIVATED` before any other check
(regardless of the prior interlock state), issuing only the interlock's
motor de-energise commands; and while the interlock is active, every
command other than `ESTOP`, `STATUS` and `RESET_ESTOP` is answered
`ERROR:ESTOP_ACTIVE` with the state untouched and no call into the
motion engine (no engine state change, no motor command); in
particular `ESTOP` followed immediately by `MOVE:1,1,1` yields
`ERROR:ESTOP_ACTIVE` for the move. -/
theorem c1_estop_priority_and_gating (env : HwEnv) (sys : SysState) (cmd : String)
    (params1 params2 : List String) (hact : sys.estop.active = true)
    (h1 : cmd ≠ "ESTOP") (h2 : cmd ≠ "STATUS") (h3 : cmd ≠ "RESET_ESTOP") :
    processCommand env sys "ESTOP" params1 =
      some ⟨some ⟨"OK", "ESTOP_ACTIVATED"⟩, { sys with estop := ⟨true⟩ }, estopDisableCmds⟩
    ∧ processCommand env sys cmd params2 = some ⟨some ⟨"ERROR", "ESTOP_ACTIVE"⟩, sys, []⟩
    ∧ (((runLine nominalHw sysReady (String.toList "ESTOP")).bind fun r =>
          runLine nominalHw r.sys (String.toList "MOVE:1,1,1")).map DispatchResult.response
        = some (some ⟨"ERROR", "ESTOP_ACTIVE"⟩)) := by
  refine ⟨?_, ?_, by decide⟩
  · simp [processCommand, estopActivate]
  · simp [processCommand, h1, h2, h3, hact]

/-- C1 witness: the gating theorem applied with the interlock active to
the command `MOVE` with parameters `1,1,1`. -/
theorem c1_witness :
    processCommand nominalHw { sysReady with estop := ⟨true⟩ } "MOVE" ["1", "1", "1"] =
      some ⟨some ⟨"ERROR", "ESTOP_ACTIVE"⟩, { sysReady with estop := ⟨true⟩ }, []⟩ :=
  (c1_estop_priority_and_gating nominalHw { sysReady with estop := ⟨true⟩ } "MOVE"
    [] ["1", "1", "1"] rfl (by decide) (by decide) (by decide)).2.1

/-- C2: `RESET_ESTOP` while the hardware interlock input is still
tripped (the active-low pin reads low) answers
`ERROR:ESTOP_STILL_ACTIVE` and leaves the whole state — in particular
the interlock's `active` flag — unchanged; when the hardware condition
is clear it answers `OK:ESTOP_RESET` and clears the flag while touching
nothing else: the motion state (its per-axis enabled flags included)
is unchanged and no motor is re-energised (no hardware command at
all). -/
theorem c2_reset_estop_behavior (env1 env2 : HwEnv) (sys1 sys2 : SysState)
    (params1 params2 : List String)
    (hlow : env1.estopPinHigh = false) (hhigh : env2.estopPinHigh = true) :
    processCommand env1 sys1 "RESET_ESTOP" params1 =
      some ⟨some ⟨"ERROR", "ESTOP_STILL_ACTIVE"⟩, sys1, []⟩
    ∧ processCommand env2 sys2 "RESET_ESTOP" params2 =
      some ⟨some ⟨"OK", "ESTOP_RESET"⟩, { sys2 with estop := ⟨false⟩ }, []⟩ := by
  constructor
  · simp [processCommand, estopReset, hlow]
  · simp [processCommand, estopReset, hhigh]

/-- C2 witness: reset refused with the input tripped and the interlock
latched; reset granted once the input is clear, with every axis
enabled flag still false. -/
theorem c2_witness :
    processCommand { nominalHw with estopPinHigh := false }
        ⟨motion0, ⟨true⟩, false, []⟩ "RESET_ESTOP" [] =
      some ⟨some ⟨"ERROR", "ESTOP_STILL_ACTIVE"⟩, ⟨motion0, ⟨true⟩, false, []⟩, []⟩
    ∧ processCommand nominalHw ⟨motion0, ⟨true⟩, false, []⟩ "RESET_ESTOP" [] =
      some ⟨some ⟨"OK", "ESTOP_RESET"⟩, ⟨motion0, ⟨false⟩, false, []⟩, []⟩ :=
  c2_reset_estop_behavior { nominalHw with estopPinHigh := false } nominalHw
    ⟨motion0, ⟨true⟩, false, []⟩ ⟨motion0, ⟨true⟩, false, []⟩ [] [] rfl rfl

/-- C3: the claim says a `TILT:999` frame with limits `[45,135]` leaves
the engine's current tilt angle at exactly 135.  The code slips: the
TILT branch of `handleServoCommands` calls `_motion.setPanAngle`, so
the frame moves the PAN axis to 999 and answers `OK:TILT_SET` while
`_currentTilt` stays at its prior value 90 (never 999, but never 135
either).  `MotionControl::setTiltAngle` itself — which the TILT branch
was evidently meant to call, and which `homeAxis('T')` does call —
clamps 999 to 135 exactly as the claim describes. -/
theorem c3_tilt_frame_moves_pan_not_tilt :
    (runLine nominalHw sysReady (String.toList "TILT:999")).map
        (fun r => (r.response, r.sys.motion.currentTilt, r.sys.motion.currentPan, r.cmds))
      = some (some ⟨"OK", "TILT_SET"⟩, 90, 999, [MotorCmd.move 'P' 999])
    ∧ (setTiltAngle nominalHw mReady 999).2.1.currentTilt = 135
    ∧ (90 : Int) ≠ 135 := by
  refine ⟨by decide, by decide, by decide⟩

/-- C4: a complete frame without `;` is dispatched to the registered
handler regardless of content; a frame with `;` is dispatched exactly
when the CRC-16 recomputed over the bytes strictly before the first
`;` equals the hex value after it, and on mismatch the parser answers
`ERROR:CHECKSUM_MISMATCH` and the handler is not invoked (a
`.dispatch` outcome is one handler invocation, a `.reject` outcome is
none). -/
theorem c4_checksum_gating (buf : List Char) :
    (buf.findIdx? (fun c => c == ';') = none →
      ∃ cmd params, parseCommand buf = .dispatch cmd params)
    ∧ ∀ si, buf.findIdx? (fun c => c == ';') = some si →
        (calculateCRC (buf.take si) = parseHexField (buf.drop (si + 1)) →
          ∃ cmd params, parseCommand buf = .dispatch cmd params)
        ∧ (calculateCRC (buf.take si) ≠ parseHexField (buf.drop (si + 1)) →
          parseCommand buf = .reject ⟨"ERROR", "CHECKSUM_MISMATCH"⟩) := by
  constructor
  · intro h
    simp only [parseCommand, h]
    exact ⟨_, _, rfl⟩
  · intro si h
    constructor
    · intro he
      simp [parseCommand, h, he]
    · intro he
      simp only [parseCommand, h]
      simp [he]

/-- C4 witness: `PING:1` (no checksum) dispatches; `MOVE:1,1,1;0000`
(wrong checksum) is rejected with `ERROR:CHECKSUM_MISMATCH`;
`PING;60B5` (correct checksum over `PING`) dispatches. -/
theorem c4_witness :
    (∃ cmd params, parseCommand (String.toList "PING:1") = .dispatch cmd params)
    ∧ parseCommand (String.toList "MOVE:1,1,1;0000") =
        .reject ⟨"ERROR", "CHECKSUM_MISMATCH"⟩
    ∧ (∃ cmd params, parseCommand (String.toList "PING;60B5") = .dispatch cmd params) :=
  ⟨(c4_checksum_gating (String.toList "PING:1")).1 (by decide),
   ((c4_checksum_gating (String.toList "MOVE:1,1,1;0000")).2 10 (by decide)).2 (by decide),
   ((c4_checksum_gating (String.toList "PING;60B5")).2 4 (by decide)).1 (by decide)⟩

/-- C5 counterexample: the claim says a MOVE frame with three
non-negative coordinates and no prior HOME is answered
`OK:MOVE_STARTED` while only enabled axes are updated; but with the X
axis disabled (and no prior HOME) `MOVE:10,20,30` is answered
`ERROR:MOVE_FAILED` — the disabled axis makes the whole command report
failure. -/
theorem c5_counterexample :
    ((runLine nominalHw sysXoff (String.toList "MOVE:10,20,30")).map
        DispatchResult.response)
      = some (some ⟨"ERROR", "MOVE_FAILED"⟩)
    ∧ some (some (Response.mk "ERROR" "MOVE_FAILED")) ≠
        some (some (Response.mk "OK" "MOVE_STARTED")) := by
  exact ⟨by decide, by decide⟩

/-- C5 as amended: `moveAbsolute` on a disabled axis fails immediately,
commanding no motion and changing no state; a `MOVE:10,20,30` frame
with no prior HOME is answered `OK:MOVE_STARTED` when every targeted
axis is enabled and fault-free (updating the targeted positions), but
`ERROR:MOVE_FAILED` when an axis is disabled — the enabled axes are
still commanded and updated, and the disabled axis's position is
untouched. -/
theorem c5_move_only_enabled_axes (env : HwEnv) (st : MotionState) (axis : Char)
    (pos : Int) (c : Char) (hn : normAxis axis = some c) (hd : axisEnabled st c = false) :
    moveAbsolute env st axis pos = some (false, st, [])
    ∧ ((runLine nominalHw sysReady (String.toList "MOVE:10,20,30")).map
         (fun r => (r.response, r.sys.motion.currentX, r.sys.motion.currentY,
                    r.sys.motion.currentZ))
        = some (some ⟨"OK", "MOVE_STARTED"⟩, 10, 20, 30))
    ∧ ((runLine nominalHw sysXoff (String.toList "MOVE:10,20,30")).map
         (fun r => (r.response, r.sys.motion.currentX, r.sys.motion.currentY,
                    r.sys.motion.currentZ))
        = some (some ⟨"ERROR", "MOVE_FAILED"⟩, 0, 20, 30)) := by
  refine ⟨?_, by decide, by decide⟩
  have hc : c = 'X' ∨ c = 'Y' ∨ c = 'Z' ∨ c = 'P' ∨ c = 'T' := by
    unfold normAxis at hn
    split_ifs at hn <;> simp at hn <;> subst hn <;> decide
  simp only [moveAbsolute, hn]
  rcases hc with h | h | h | h | h <;> subst h <;>
    simp_all [axisEnabled, setTiltAngle]

/-- C5 witness: the disabled-axis clause applied to the X axis of the
X-disabled system at target 10. -/
theorem c5_witness :
    moveAbsolute nominalHw sysXoff.motion 'X' 10 = some (false, sysXoff.motion, []) :=
  (c5_move_only_enabled_axes nominalHw sysXoff.motion 'X' 10 'X'
    (by decide) (by decide)).1

/-- The engine state `homePanAxis` leaves behind on a completed
search: pan position zeroed, the hardware velocity limit restored to
the saved `_velocityPan`. -/
def panHomedState (st : MotionState) : MotionState :=
  { st with currentPan := 0, panVelMaxHw := st.velocityPan, velocityPan := st.velocityPan }

/-- The hardware command trace of a completed pan homing after the
search: the enable cycle at start, then the abrupt stop, the
disable / reference-zero / commanded-zero / re-enable sequence. -/
def panHomingCmds : List MotorCmd :=
  [.enableReq 'P' false, .enableReq 'P' true, .stopAbrupt 'P',
   .enableReq 'P' false, .positionRefSet 'P' 0, .move 'P' 0, .enableReq 'P' true]

/-- The home-flag trace used by the C6 witness: asserted at poll 0,
de-asserted at polls 1–2, re-asserted from poll 3 on. -/
def sensorEdge : Nat → Bool := fun n => n == 0 || Nat.ble 3 n

/-- The home-flag trace used by the C6 witness: unasserted until it
first asserts at poll 2. -/
def sensorLate : Nat → Bool := fun n => Nat.ble 2 n

/-- C6: pan-axis homing with the home flag asserted at start first
rotates until the flag de-asserts and then until it re-asserts — two
search segments — while homing with the flag unasserted performs
exactly one segment; in both cases the search ends by halting motion,
zeroing the axis reference (`PositionRefSet(0)` appears in the command
trace) and the engine's pan position, and restoring the prior pan
velocity limit. -/
theorem c6_pan_homing (env : HwEnv) (st : MotionState)
    (hen : st.panEnabled = true) (hh : env.panHlfbOk = true)
    (ha : env.panAlertsEnd = false) :
    (∀ t1 t2, env.panSensor 0 = true →
      boundedFindFrom (fun n => !env.panSensor n) 0 env.homingFuel = some t1 →
      boundedFindFrom (fun n => env.panSensor n) t1 env.homingFuel = some t2 →
      homePanAxis env st = some ⟨true, panHomedState st, panHomingCmds, 2⟩)
    ∧ (∀ t1, env.panSensor 0 = false →
      boundedFindFrom (fun n => env.panSensor n) 0 env.homingFuel = some t1 →
      homePanAxis env st = some ⟨true, panHomedState st, panHomingCmds, 1⟩) := by
  constructor
  · intro t1 t2 hs h1 h2
    simp [homePanAxis, hen, hh, hs, ha, h1, h2, panHomedState, panHomingCmds]
  · intro t1 hs h1
    simp [homePanAxis, hen, hh, hs, ha, h1, panHomedState, panHomingCmds]

/-- C6 witness: the edge sensor trace (asserted at start) gives two
segments; the late trace (unasserted at start) gives one — both zero
the pan position and restore the velocity limit. -/
theorem c6_witness :
    homePanAxis { nominalHw with panSensor := sensorEdge } mReady
      = some ⟨true, panHomedState mReady, panHomingCmds, 2⟩
    ∧ homePanAxis { nominalHw with panSensor := sensorLate } mReady
      = some ⟨true, panHomedState mReady, panHomingCmds, 1⟩ :=
  ⟨(c6_pan_homing { nominalHw with panSensor := sensorEdge } mReady
      rfl rfl rfl).1 1 3 (by decide) (by decide) (by decide),
   (c6_pan_homing { nominalHw with panSensor := sensorLate } mReady
      rfl rfl rfl).2 2 (by decide) (by decide)⟩

/-- C7 counterexample: with no peer ever available, five automatic
reconnect attempts (2 s, 4 s, 9 s, 19 s, 49 s) followed by a sixth
call that hits `MAX_RECONNECT_ATTEMPTS` leave the transport
`Disconnected` with the attempt counter already reset to 0 — reset by
the cap branch, not by a successful connection or a manual
disconnect — and a further automatic `reconnect()` call at 51 s makes
another attempt (the attempt statistic grows from 5 to 6 and the
attempt is stamped), so the transport does NOT remain quiescent until
a manual `connect()`. -/
theorem c7_counterexample :
    ethAfterCap.reconnectAttempts = 0
    ∧ ethAfterCap.connectionState = ConnState.disconnected
    ∧ ethAfterCap.statReconnectAttempts = 5
    ∧ (reconnect (noPeerAt 51000) ethAfterCap).2.1.statReconnectAttempts = 6
    ∧ (reconnect (noPeerAt 51000) ethAfterCap).2.1.reconnectAttempts = 1
    ∧ (reconnect (noPeerAt 51000) ethAfterCap).2.1.lastReconnectTime = 51000 := by
  refine ⟨by decide, by decide, by decide, by decide, by decide, by decide⟩

/-- C7 as amended: a `reconnect()` call that finds the attempt counter
at `MAX_RECONNECT_ATTEMPTS` refuses to attempt, transitions to
`Disconnected` and resets the counters to zero — so the counter is
also reset by hitting the cap, and automatic reconnection re-arms: a
subsequent call with the counters fresh and the first backoff delay
elapsed makes another attempt (counter back to 1, attempt statistic
incremented) without any manual `connect()`. -/
theorem c7_reconnect_cap_resets (env env2 : NetEnv) (st st2 : EthState)
    (hnc : (st.connectionState == ConnState.connected && env.clientConnected) = false)
    (hcap : st.reconnectAttempts ≥ MAX_RECONNECT_ATTEMPTS)
    (hnc2 : (st2.connectionState == ConnState.connected && env2.clientConnected) = false)
    (h0 : st2.reconnectAttempts = 0) (hl : st2.lastReconnectTime = 0)
    (ht : 1000 ≤ env2.now) (hsa : env2.serverAvail = false) :
    reconnect env st =
      (false, resetReconnectionCounters (updateConnectionState st .disconnected 0), [])
    ∧ (reconnect env2 st2).1 = false
    ∧ (reconnect env2 st2).2.1.reconnectAttempts = 1
    ∧ (reconnect env2 st2).2.1.statReconnectAttempts = st2.statReconnectAttempts + 1
    ∧ (reconnect env2 st2).2.1.connectionState = ConnState.disconnected := by
  have hdelay : ¬(env2.now - st2.lastReconnectTime <
      calculateReconnectDelay st2.reconnectAttempts) := by
    rw [h0, hl]
    simp [calculateReconnectDelay, reconnectBackoff, MAX_RECONNECT_ATTEMPTS]
    omega
  have hnocap : ¬(st2.reconnectAttempts ≥ MAX_RECONNECT_ATTEMPTS) := by
    rw [h0]
    simp [MAX_RECONNECT_ATTEMPTS]
  have hstep : reconnect env2 st2 =
      (false, updateConnectionState (updateConnectionState
        { st2 with lastReconnectTime := env2.now,
                   reconnectAttempts := st2.reconnectAttempts + 1 }
        .reconnecting 0) .disconnected 0, []) := by
    simp [reconnect, hnc2, hnocap, hdelay, hsa]
  refine ⟨by simp [reconnect, hnc, hcap], ?_, ?_, ?_, ?_⟩ <;>
    simp [hstep, updateConnectionState, h0]

/-- C7 witness: the cap clause applied to a five-failure state, and
the re-arm clause applied to the fresh state at 1000 ms. -/
theorem c7_witness :
    reconnect (noPeerAt 0) { eth0 with reconnectAttempts := 5 } =
      (false, resetReconnectionCounters
        (updateConnectionState { eth0 with reconnectAttempts := 5 } .disconnected 0), [])
    ∧ (reconnect (noPeerAt 1000) eth0).2.1.reconnectAttempts = 1 :=
  ⟨(c7_reconnect_cap_resets (noPeerAt 0) (noPeerAt 1000)
      { eth0 with reconnectAttempts := 5 } eth0 (by decide) (by decide) (by decide)
      rfl rfl (by decide) rfl).1,
   (c7_reconnect_cap_resets (noPeerAt 0) (noPeerAt 1000)
      { eth0 with reconnectAttempts := 5 } eth0 (by decide) (by decide) (by decide)
      rfl rfl (by decide) rfl).2.2.1⟩

/-- `flushLoop` drains the whole queue, in order, when every chunk is
accepted in full. -/
theorem flushLoop_drains (send : List Nat → Nat) :
    ∀ q : List (List Nat), (∀ c ∈ q, send c = c.length) →
      flushLoop send q = (true, [], q, (q.map List.length).sum) := by
  intro q
  induction q with
  | nil => intro _; rfl
  | cons c rest ih =>
    intro h
    have hc : send c = c.length := h c (by simp)
    simp [flushLoop, hc, ih (fun d hd => h d (by simp [hd]))]

/-- C8 counterexample: the claim says every chunk written while not
connected is enqueued as long as the FIFO is not full; but a 65-byte
chunk — one byte over the fixed `PendingData::data[64]` capacity —
written to the freshly initialised (empty-queue, auto-reconnect
enabled) disconnected transport is refused: the write returns 0 and
nothing is enqueued. -/
theorem c8_counterexample :
    writeChunk (noPeerAt 5) eth0 (List.replicate 65 7) = (0, eth0, [])
    ∧ eth0.pendingQueue.length < MAX_PENDING_ITEMS := by
  exact ⟨by decide, by decide⟩

/-- C8 as amended: a chunk written while not connected is appended to
the back of the pending FIFO — preserving order — and reported as
written, provided auto-reconnect is enabled, the FIFO holds fewer than
`MAX_PENDING_ITEMS` chunks and the chunk is at most
`PENDING_CHUNK_CAP` (64) bytes; with the FIFO full the write is
refused (0 returned) and nothing already queued is dropped; after the
next successful `connect()` the queued chunks are transmitted to the
peer in their original order (before any later write, which can only
happen afterwards on the emptied queue); and replay stops at the first
chunk that does not send in full, keeping it and its successors
queued. -/
theorem c8_pending_write_buffering (env envc : NetEnv) (st stc : EthState)
    (chunk : List Nat)
    (hnc : env.clientConnected = false) (hre : st.reconnectEnabled = true)
    (hroom : st.pendingQueue.length < MAX_PENDING_ITEMS)
    (hfit : chunk.length ≤ PENDING_CHUNK_CAP)
    (hncc : (stc.connectionState == ConnState.connected && envc.clientConnected) = false)
    (havail : envc.serverAvail = true)
    (hsend : ∀ c ∈ stc.pendingQueue, envc.sendAccepts c = c.length) :
    writeChunk env st chunk =
      (chunk.length, { st with pendingQueue := st.pendingQueue ++ [chunk] }, [])
    ∧ (∀ st2 : EthState, st2.pendingQueue.length ≥ MAX_PENDING_ITEMS →
        writeChunk env st2 chunk = (0, st2, []))
    ∧ ((connect envc stc).1 = true
       ∧ (connect envc stc).2.2 = stc.pendingQueue
       ∧ (connect envc stc).2.1.pendingQueue = [])
    ∧ (∀ (send : List Nat → Nat) (c : List Nat) (rest : List (List Nat)),
        send c ≠ c.length → flushLoop send (c :: rest) = (false, c :: rest, [], 0)) := by
  refine ⟨?_, ?_, ?_, ?_⟩
  · simp [writeChunk, hnc, hre, hroom, hfit]
  · intro st2 hfull
    have : ¬(st2.pendingQueue.length < MAX_PENDING_ITEMS) := by omega
    simp [writeChunk, hnc, this]
  · have hflush := flushLoop_drains envc.sendAccepts stc.pendingQueue hsend
    cases hq : stc.pendingQueue with
    | nil => simp [connect, hncc, havail, flushPendingData, updateConnectionState, hq]
    | cons c rest =>
      rw [hq] at hflush
      simp [connect, hncc, havail, flushPendingData, updateConnectionState, hq, hflush]
  · intro send c rest hfail
    simp [flushLoop, hfail]

/-- C8 witness: the enqueue clause applied to the fresh disconnected
transport with the chunk `[1, 2, 3]`, and the replay clause applied to
a queue holding `[1, 2]` then `[3]` with a fully accepting peer. -/
theorem c8_witness :
    writeChunk (noPeerAt 5) eth0 [1, 2, 3] =
      (3, { eth0 with pendingQueue := [[1, 2, 3]] }, [])
    ∧ (connect ⟨100, false, true, fun c => c.length⟩
        { eth0 with pendingQueue := [[1, 2], [3]] }).2.2 = [[1, 2], [3]] :=
  ⟨(c8_pending_write_buffering (noPeerAt 5) ⟨100, false, true, fun c => c.length⟩
      eth0 { eth0 with pendingQueue := [[1, 2], [3]] } [1, 2, 3]
      rfl rfl (by decide) (by decide) (by decide) rfl
      (by intro c hc; fin_cases hc <;> rfl)).1,
   (c8_pending_write_buffering (noPeerAt 5) ⟨100, false, true, fun c => c.length⟩
      eth0 { eth0 with pendingQueue := [[1, 2], [3]] } [1, 2, 3]
      rfl rfl (by decide) (by decide) (by decide) rfl
      (by intro c hc; fin_cases hc <;> rfl)).2.2.1.2.1⟩

/-- Structural cases of `moveAbsolute` on a linear/pan axis: the state
is either untouched or has exactly that axis's position set, and the
command trace is empty or the single absolute move for that axis. -/
theorem moveAbsolute_cases (env : HwEnv) (st : MotionState) (a : Char) (pos : Int)
    (ha : a = 'X' ∨ a = 'Y' ∨ a = 'Z' ∨ a = 'P') :
    ∀ b st2 cs, moveAbsolute env st a pos = some (b, st2, cs) →
      (st2 = st ∨ st2 = setAxisPos st a pos) ∧ (cs = [] ∨ cs = [MotorCmd.move a pos]) := by
  intro b st2 cs h
  rcases ha with h1 | h1 | h1 | h1 <;> subst h1 <;>
  · simp [moveAbsolute, normAxis] at h
    split_ifs at h
    all_goals rcases h with ⟨hb, rfl, rfl⟩
    all_goals simp [setAxisPos]

/-- Structural cases of `setTiltAngle`: the state is either untouched
or has exactly the tilt angle set. -/
theorem setTiltAngle_state_cases (env : HwEnv) (s : MotionState) (v : Int) :
    (setTiltAngle env s v).2.1 = s
    ∨ ∃ a, (setTiltAngle env s v).2.1 = { s with currentTilt := a } := by
  simp only [setTiltAngle]
  split_ifs <;> first | exact Or.inl rfl | exact Or.inr ⟨_, rfl⟩

/-- Structural cases of `setTiltAngle`: the command trace is empty or a
single servo command. -/
theorem setTiltAngle_cmds_cases (env : HwEnv) (s : MotionState) (v : Int) :
    (setTiltAngle env s v).2.2 = []
    ∨ ∃ a, (setTiltAngle env s v).2.2 = [MotorCmd.servoSet a] := by
  simp only [setTiltAngle]
  split_ifs <;> first | exact Or.inl rfl | exact Or.inr ⟨_, rfl⟩

/-- The motor commands that move a given linear/pan axis. -/
def isAxisMove (c : Char) : MotorCmd → Prop
  | .move a _ => a = c
  | _ => False

/-- The tilt-servo commands. -/
def isServoSet : MotorCmd → Prop
  | .servoSet _ => True
  | _ => False

/-- A step result leaves the protected quantity `proj` at its starting
value and emits none of the protected commands `bad`. -/
def Safe (proj : MotionState → Int) (bad : MotorCmd → Prop) (st : MotionState)
    (r : Bool × MotionState × List MotorCmd) : Prop :=
  proj r.2.1 = proj st ∧ ∀ m ∈ r.2.2, ¬ bad m

/-- Distributing a shared continuation over an `if`, to expose the
bind structure of `moveToPosition`'s per-axis steps. -/
theorem ite_bind (p : Prop) [Decidable p] {α β : Type} (o1 o2 : Option α)
    (k : α → Option β) :
    (if p then o1 >>= k else o2 >>= k) = (if p then o1 else o2) >>= k := by
  split_ifs <;> rfl

/-- Sequencing preserves `Safe`. -/
theorem chain_safe (proj : MotionState → Int) (bad : MotorCmd → Prop) (st : MotionState)
    (o : Option (Bool × MotionState × List MotorCmd))
    (k : Bool × MotionState × List MotorCmd → Option (Bool × MotionState × List MotorCmd))
    (ho : ∀ r, o = some r → Safe proj bad st r)
    (hk : ∀ r, Safe proj bad st r → ∀ r2, k r = some r2 → Safe proj bad st r2) :
    ∀ r2, o >>= k = some r2 → Safe proj bad st r2 := by
  intro r2 h
  rw [Option.bind_eq_bind, Option.bind_eq_some] at h
  obtain ⟨r, hr, hk2⟩ := h
  exact hk r (ho r hr) r2 hk2

/-- A guarded `moveAbsolute` step on axis `a` is `Safe` for any
protected quantity that `setAxisPos` on `a` does not change and any
protected command class excluding the `a`-axis move. -/
theorem step_safe (env : HwEnv) (proj : MotionState → Int) (bad : MotorCmd → Prop)
    (st : MotionState) (a : Char) (ha : a = 'X' ∨ a = 'Y' ∨ a = 'Z' ∨ a = 'P')
    (hproj : ∀ (s : MotionState) (v : Int), proj (setAxisPos s a v) = proj s)
    (hbad : ∀ v : Int, ¬ bad (MotorCmd.move a v))
    (p : Prop) [Decidable p] (v : Int) :
    ∀ s : MotionState, proj s = proj st → ∀ r,
      (if p then moveAbsolute env s a v else pure (true, s, [])) = some r →
        Safe proj bad st r := by
  intro s hs r h
  split_ifs at h
  · obtain ⟨hst, hcs⟩ := moveAbsolute_cases env s a v ha r.1 r.2.1 r.2.2 h
    constructor
    · rcases hst with h1 | h1
      · rw [h1, hs]
      · rw [h1, hproj, hs]
    · intro m hm
      rcases hcs with h2 | h2 <;> rw [h2] at hm
      · simp at hm
      · rw [List.mem_singleton] at hm
        subst hm
        exact hbad v
  · cases h
    exact ⟨hs, fun m hm => by simp at hm⟩

/-- The guarded tilt step of `moveToPosition` is `Safe` for any
protected quantity other than the tilt angle and any protected command
class excluding servo commands. -/
theorem tilt_step_safe (env : HwEnv) (proj : MotionState → Int) (bad : MotorCmd → Prop)
    (st : MotionState)
    (hproj : ∀ (s : MotionState) (v : Int),
      proj ({ s with currentTilt := v } : MotionState) = proj s)
    (hbad : ∀ v : Int, ¬ bad (MotorCmd.servoSet v))
    (p : Prop) [Decidable p] (v : Int) :
    ∀ s : MotionState, proj s = proj st → ∀ r,
      (if p then pure (setTiltAngle env s v) else pure (true, s, [])) = some r →
        Safe proj bad st r := by
  intro s hs r h
  split_ifs at h
  · cases h
    constructor
    · rcases setTiltAngle_state_cases env s v with h1 | ⟨a, h1⟩
      · rw [h1, hs]
      · rw [h1, hproj, hs]
    · intro m hm
      rcases setTiltAngle_cmds_cases env s v with h2 | ⟨a, h2⟩ <;> rw [h2] at hm
      · simp at hm
      · rw [List.mem_singleton] at hm
        subst hm
        exact hbad a
  · cases h
    exact ⟨hs, fun m hm => by simp at hm⟩

/-- A step whose guard is false is skipped and trivially `Safe`. -/
theorem skip_step_safe (proj : MotionState → Int) (bad : MotorCmd → Prop)
    (st : MotionState) (o : MotionState → Option (Bool × MotionState × List MotorCmd))
    (p : Prop) [Decidable p] (hp : ¬ p) :
    ∀ s : MotionState, proj s = proj st → ∀ r,
      (if p then o s else pure (true, s, [])) = some r → Safe proj bad st r := by
  intro s hs r h
  rw [if_neg hp] at h
  cases h
  exact ⟨hs, fun m hm => by simp at hm⟩

/-- The five-step walk of `moveToPosition`: if every per-axis step is
`Safe` for a protected quantity and command class, the whole call
leaves the quantity unchanged and emits no protected command. -/
theorem moveToPosition_safe (env : HwEnv) (st : MotionState) (x y z pan tilt : Int)
    (proj : MotionState → Int) (bad : MotorCmd → Prop)
    (hsx : ∀ s : MotionState, proj s = proj st → ∀ r,
      (if x ≥ 0 then moveAbsolute env s 'X' x else pure (true, s, [])) = some r →
        Safe proj bad st r)
    (hsy : ∀ s : MotionState, proj s = proj st → ∀ r,
      (if y ≥ 0 then moveAbsolute env s 'Y' y else pure (true, s, [])) = some r →
        Safe proj bad st r)
    (hsz : ∀ s : MotionState, proj s = proj st → ∀ r,
      (if z ≥ 0 then moveAbsolute env s 'Z' z else pure (true, s, [])) = some r →
        Safe proj bad st r)
    (hsp : ∀ s : MotionState, proj s = proj st → ∀ r,
      (if pan ≥ 0 then moveAbsolute env s 'P' pan else pure (true, s, [])) = some r →
        Safe proj bad st r)
    (hst : ∀ s : MotionState, proj s = proj st → ∀ r,
      (if tilt ≥ 0 then pure (setTiltAngle env s tilt) else pure (true, s, [])) = some r →
        Safe proj bad st r) :
    ∀ ok st5 cs, moveToPosition env st x y z pan tilt = some (ok, st5, cs) →
      proj st5 = proj st ∧ ∀ m ∈ cs, ¬ bad m := by
  intro ok st5 cs h
  unfold moveToPosition at h
  simp only [ite_bind] at h
  refine chain_safe proj bad st _ _ (hsx st rfl) ?_ (ok, st5, cs) h
  rintro ⟨rx, st1, c1⟩ ⟨hs1, hc1⟩ r2 h2
  refine chain_safe proj bad st _ _ (hsy st1 hs1) ?_ r2 h2
  rintro ⟨ry, st2, c2⟩ ⟨hs2, hc2⟩ r3 h3
  refine chain_safe proj bad st _ _ (hsz st2 hs2) ?_ r3 h3
  rintro ⟨rz, st3, c3⟩ ⟨hs3, hc3⟩ r4 h4
  refine chain_safe proj bad st _ _ (hsp st3 hs3) ?_ r4 h4
  rintro ⟨rp, st4, c4⟩ ⟨hs4, hc4⟩ r5 h5
  refine chain_safe proj bad st _ _ (hst st4 hs4) ?_ r5 h5
  rintro ⟨rt, stt, c5⟩ ⟨hs5, hc5⟩ r6 h6
  cases h6
  refine ⟨hs5, ?_⟩
  intro m hm
  simp only [List.mem_append] at hm
  rcases hm with ((((hm | hm) | hm) | hm) | hm)
  exacts [hc1 m hm, hc2 m hm, hc3 m hm, hc4 m hm, hc5 m hm]

/-- C9: the claim says a `<NAME>;<CHECKSUM>` frame (checksum, no
parameter list) is dispatched with command name exactly `<NAME>`.  The
parser only strips the checksum segment when a `:` is present; with no
`:` it copies the whole buffer into the command, so the frame
`PING;60B5` — whose checksum is the valid CRC-16 of `PING` — is
dispatched with command name `PING;60B5` (and zero parameters), not
`PING`. -/
theorem c9_checksum_without_colon_kept_in_name :
    parseCommand (String.toList "PING;60B5") =
      .dispatch (String.toList "PING;60B5") []
    ∧ String.toList "PING;60B5" ≠ String.toList "PING"
    ∧ calculateCRC (String.toList "PING") = 0x60B5 := by
  refine ⟨by decide, by decide, by decide⟩

/-- C10: in a multi-axis move, every axis whose target is negative is
skipped entirely: the outcome — the returned success value included —
is independent of which negative value was passed in that slot; the
axis's current position (the tilt angle for the tilt slot) is
unchanged; no motor command for that axis (no servo command for the
tilt slot) is issued; and concretely, a move with a negative X target
on a machine whose X axis is disabled still reports success while the
X axis never moved. -/
theorem c10_negative_target_skipped (env : HwEnv) (st : MotionState)
    (x y z pan tilt v : Int) :
    (x < 0 → v < 0 →
      moveToPosition env st x y z pan tilt = moveToPosition env st v y z pan tilt)
    ∧ (y < 0 → v < 0 →
      moveToPosition env st x y z pan tilt = moveToPosition env st x v z pan tilt)
    ∧ (z < 0 → v < 0 →
      moveToPosition env st x y z pan tilt = moveToPosition env st x y v pan tilt)
    ∧ (pan < 0 → v < 0 →
      moveToPosition env st x y z pan tilt = moveToPosition env st x y z v tilt)
    ∧ (tilt < 0 → v < 0 →
      moveToPosition env st x y z pan tilt = moveToPosition env st x y z pan v)
    ∧ (∀ ok st5 cs, moveToPosition env st x y z pan tilt = some (ok, st5, cs) →
        (x < 0 → st5.currentX = st.currentX ∧ ∀ t, MotorCmd.move 'X' t ∉ cs)
        ∧ (y < 0 → st5.currentY = st.currentY ∧ ∀ t, MotorCmd.move 'Y' t ∉ cs)
        ∧ (z < 0 → st5.currentZ = st.currentZ ∧ ∀ t, MotorCmd.move 'Z' t ∉ cs)
        ∧ (pan < 0 → st5.currentPan = st.currentPan ∧ ∀ t, MotorCmd.move 'P' t ∉ cs)
        ∧ (tilt < 0 → st5.currentTilt = st.currentTilt ∧ ∀ t, MotorCmd.servoSet t ∉ cs))
    ∧ ((moveToPosition nominalHw { mReady with xEnabled := false } (-5) 20 30 0 90).map
        (fun r => (r.1, r.2.1.currentX)) = some (true, 0)) := by
  refine ⟨?_, ?_, ?_, ?_, ?_, ?_, by decide⟩
  · intro hx hv
    have h1 : ¬ x ≥ 0 := by omega
    have h2 : ¬ v ≥ 0 := by omega
    simp [moveToPosition, h1, h2]
  · intro hy hv
    have h1 : ¬ y ≥ 0 := by omega
    have h2 : ¬ v ≥ 0 := by omega
    simp [moveToPosition, h1, h2]
  · intro hz hv
    have h1 : ¬ z ≥ 0 := by omega
    have h2 : ¬ v ≥ 0 := by omega
    simp [moveToPosition, h1, h2]
  · intro hp hv
    have h1 : ¬ pan ≥ 0 := by omega
    have h2 : ¬ v ≥ 0 := by omega
    simp [moveToPosition, h1, h2]
  · intro ht hv
    have h1 : ¬ tilt ≥ 0 := by omega
    have h2 : ¬ v ≥ 0 := by omega
    simp [moveToPosition, h1, h2]
  · intro ok st5 cs h
    refine ⟨?_, ?_, ?_, ?_, ?_⟩
    · intro hx
      have hs := moveToPosition_safe env st x y z pan tilt
        MotionState.currentX (isAxisMove 'X')
        (skip_step_safe MotionState.currentX (isAxisMove 'X') st _ (x ≥ 0) (by omega))
        (step_safe env MotionState.currentX (isAxisMove 'X') st 'Y' (Or.inr (Or.inl rfl)) (fun s w => rfl)
          (fun w => by simp [isAxisMove]) _ y)
        (step_safe env MotionState.currentX (isAxisMove 'X') st 'Z' (Or.inr (Or.inr (Or.inl rfl))) (fun s w => rfl)
          (fun w => by simp [isAxisMove]) _ z)
        (step_safe env MotionState.currentX (isAxisMove 'X') st 'P' (Or.inr (Or.inr (Or.inr rfl))) (fun s w => rfl)
          (fun w => by simp [isAxisMove]) _ pan)
        (tilt_step_safe env MotionState.currentX (isAxisMove 'X') st (fun s w => rfl)
          (fun w => by simp [isAxisMove]) _ tilt)
        ok st5 cs h
      exact ⟨hs.1, fun t htm => hs.2 _ htm rfl⟩
    · intro hy
      have hs := moveToPosition_safe env st x y z pan tilt
        MotionState.currentY (isAxisMove 'Y')
        (step_safe env MotionState.currentY (isAxisMove 'Y') st 'X' (Or.inl rfl) (fun s w => rfl)
          (fun w => by simp [isAxisMove]) _ x)
        (skip_step_safe MotionState.currentY (isAxisMove 'Y') st _ (y ≥ 0) (by omega))
        (step_safe env MotionState.currentY (isAxisMove 'Y') st 'Z' (Or.inr (Or.inr (Or.inl rfl))) (fun s w => rfl)
          (fun w => by simp [isAxisMove]) _ z)
        (step_safe env MotionState.currentY (isAxisMove 'Y') st 'P' (Or.inr (Or.inr (Or.inr rfl))) (fun s w => rfl)
          (fun w => by simp [isAxisMove]) _ pan)
        (tilt_step_safe env MotionState.currentY (isAxisMove 'Y') st (fun s w => rfl)
          (fun w => by simp [isAxisMove]) _ tilt)
        ok st5 cs h
      exact ⟨hs.1, fun t htm => hs.2 _ htm rfl⟩
    · intro hz
      have hs := moveToPosition_safe env st x y z pan tilt
        MotionState.currentZ (isAxisMove 'Z')
        (step_safe env MotionState.currentZ (isAxisMove 'Z') st 'X' (Or.inl rfl) (fun s w => rfl)
          (fun w => by simp [isAxisMove]) _ x)
        (step_safe env MotionState.currentZ (isAxisMove 'Z') st 'Y' (Or.inr (Or.inl rfl)) (fun s w => rfl)
          (fun w => by simp [isAxisMove]) _ y)
        (skip_step_safe MotionState.currentZ (isAxisMove 'Z') st _ (z ≥ 0) (by omega))
        (step_safe env MotionState.currentZ (isAxisMove 'Z') st 'P' (Or.inr (Or.inr (Or.inr rfl))) (fun s w => rfl)
          (fun w => by simp [isAxisMove]) _ pan)
        (tilt_step_safe env MotionState.currentZ (isAxisMove 'Z') st (fun s w => rfl)
          (fun w => by simp [isAxisMove]) _ tilt)
        ok st5 cs h
      exact ⟨hs.1, fun t htm => hs.2 _ htm rfl⟩
    · intro hp
      have hs := moveToPosition_safe env st x y z pan tilt
        MotionState.currentPan (isAxisMove 'P')
        (step_safe env MotionState.currentPan (isAxisMove 'P') st 'X' (Or.inl rfl) (fun s w => rfl)
          (fun w => by simp [isAxisMove]) _ x)
        (step_safe env MotionState.currentPan (isAxisMove 'P') st 'Y' (Or.inr (Or.inl rfl)) (fun s w => rfl)
          (fun w => by simp [isAxisMove]) _ y)
        (step_safe env MotionState.currentPan (isAxisMove 'P') st 'Z' (Or.inr (Or.inr (Or.inl rfl))) (fun s w => rfl)
          (fun w => by simp [isAxisMove]) _ z)
        (skip_step_safe MotionState.currentPan (isAxisMove 'P') st _ (pan ≥ 0) (by omega))
        (tilt_step_safe env MotionState.currentPan (isAxisMove 'P') st (fun s w => rfl)
          (fun w => by simp [isAxisMove]) _ tilt)
        ok st5 cs h
      exact ⟨hs.1, fun t htm => hs.2 _ htm rfl⟩
    · intro htl
      have hs := moveToPosition_safe env st x y z pan tilt
        MotionState.currentTilt isServoSet
        (step_safe env MotionState.currentTilt isServoSet st 'X' (Or.inl rfl) (fun s w => rfl)
          (fun w => by simp [isServoSet]) _ x)
        (step_safe env MotionState.currentTilt isServoSet st 'Y' (Or.inr (Or.inl rfl)) (fun s w => rfl)
          (fun w => by simp [isServoSet]) _ y)
        (step_safe env MotionState.currentTilt isServoSet st 'Z' (Or.inr (Or.inr (Or.inl rfl))) (fun s w => rfl)
          (fun w => by simp [isServoSet]) _ z)
        (step_safe env MotionState.currentTilt isServoSet st 'P' (Or.inr (Or.inr (Or.inr rfl))) (fun s w => rfl)
          (fun w => by simp [isServoSet]) _ pan)
        (skip_step_safe MotionState.currentTilt isServoSet st _ (tilt ≥ 0) (by omega))
        ok st5 cs h
      exact ⟨hs.1, fun t htm => hs.2 _ htm trivial⟩

/-- C10 witness: at X targets -7 and -3 on the nominal ready machine
(all other targets non-negative), the outcomes are identical and the X
position is reported unchanged. -/
theorem c10_witness :
    moveToPosition nominalHw mReady (-7) 20 30 0 90 =
      moveToPosition nominalHw mReady (-3) 20 30 0 90
    ∧ ((moveToPosition nominalHw mReady (-7) 20 30 0 90).map
        (fun r => r.2.1.currentX) = some mReady.currentX) := by
  have h := c10_negative_target_skipped nominalHw mReady (-7) 20 30 0 90 (-3)
  refine ⟨h.1 (by decide) (by decide), ?_⟩
  rcases hrun : moveToPosition nominalHw mReady (-7) 20 30 0 90 with _ | ⟨⟨ok, st5, cs⟩⟩
  · exact absurd hrun (by decide)
  · simp [((h.2.2.2.2.2.1 ok st5 cs hrun).1 (by decide)).1]

end SpaceMaquette
